import Mathlib

/-!
Shallow embedding of `pkg/varlinkapi/images.go` (libpod varlink image API)
and proofs about its handlers.

External collaborators (the image runtime, the registry client, the buildah
build backend, the filesystem) are modelled as explicit oracle parameters:
each handler is a pure function of its request and of the outcomes those
collaborators would report.  Everything the handler itself computes —
validation, dispatch, the reply framing, the poll loop of `BuildImage` —
is translated directly from the Go source.
-/

namespace Varlinkapi

/-- Constant `buildah.OCIv1ImageManifest` (an OCI image manifest media type),
from the vendored buildah library. -/
def ociV1ImageManifest : String := "application/vnd.oci.image.manifest.v1+json"

/-- Constant `buildah.Dockerv2ImageManifest` (Docker schema-2 manifest media
type), from the vendored buildah library. -/
def dockerv2ImageManifest : String := "application/vnd.docker.distribution.manifest.v2+json"

/-- Constant `specs.NetworkNamespace` from the OCI runtime spec library. -/
def networkNamespace : String := "network"

/-- Mirror of `buildah.NamespaceOption`. -/
structure NamespaceOption where
  name : String
  host : Bool
  path : String
deriving DecidableEq, Repr

/-- Mirror of `imagebuildah` pull policies. -/
inductive PullPolicy
  | pullNever
  | pullIfMissing
  | pullAlways
deriving DecidableEq, Repr

/-- Mirror of `buildah.CommonBuildOptions` (the fields `BuildImage` sets). -/
structure CommonBuildOptions where
  addHost : List String
  cgroupParent : String
  cpuPeriod : Nat
  cpuQuota : Int
  cpuSetCPUs : String
  cpuSetMems : String
  memory : Int
  memorySwap : Int
  shmSize : String
  ulimit : List String
  volumes : List String
deriving DecidableEq, Repr

/-- Mirror of `imagebuildah.BuildOptions` (the fields `BuildImage` sets). -/
structure BuildOptions where
  contextDirectory : String
  pullPolicy : PullPolicy
  quiet : Bool
  args : List (String × String)
  additionalTags : List String
  outputFormat : String
  commonBuildOpts : CommonBuildOptions
  squash : Bool
  labels : List String
  annotations : List String
  namespaceOptions : List NamespaceOption
deriving DecidableEq, Repr

/-- Mirror of `iopodman.BuildInfo` (the fields the handler reads). -/
structure BuildInfo where
  dockerfile : List String
  tags : List String
  add_hosts : List String
  cgroup_parent : String
  cpu_period : Int
  cpu_quota : Int
  cpuset_cpus : String
  cpuset_mems : String
  memory : String
  memory_swap : String
  shm_size : String
  ulimit : List String
  volume : List String
  squash : Bool
  pull : Bool
  pull_always : Bool
  image_format : String
  build_args : List (String × String)
  label : List String
  annotations : List String
deriving DecidableEq, Repr

/-- Replies a varlink image call can emit.  `buildChunk` is a
`ReplyBuildImage` frame sent while `call.Continues` is true (a streamed
partial log batch); `buildFinal` is the terminal `ReplyBuildImage` frame
carrying the last log batch and the new image ID; `errorOccurred` is
`ReplyErrorOccurred`. -/
inductive Reply
  | buildChunk (logs : List String)
  | buildFinal (logs : List String) (id : String)
  | errorOccurred (msg : String)
deriving DecidableEq, Repr

/-- Go's `uint64(x)` conversion of a signed 64-bit value. -/
def toUInt64Nat (x : Int) : Nat := (x % 2 ^ 64).toNat

/-- Translation of Go's `strings.HasPrefix s pre`, stated over the
character lists of the two strings so that it evaluates by kernel
reduction. -/
def hasPrefix (s pre : String) : Bool := pre.data.isPrefixOf s.data

/-- Translation of the dockerfile URL test at the top of `BuildImage`:
a dockerfile argument is left alone when it is a remote reference. -/
def isRemoteDockerfile (s : String) : Bool :=
  hasPrefix s "http://" || hasPrefix s "https://" ||
  hasPrefix s "git://" || hasPrefix s "github.com/"

/-- Translation of the dockerfile loop of `BuildImage`: the first
non-remote dockerfile fixes the context directory and is rewritten
relative to it; entries after it are untouched.  `filepath.Abs`,
`filepath.Dir` and `filepath.Rel` are filesystem-path oracles modelled as
total functions: `Abs` can fail only when the process working directory is
unavailable (an environment fault, not a property of the request) and
`Rel(Dir(p), p)` never fails. -/
def resolveContext (abs : String → String) (dir : String → String)
    (rel : String → String → String) : List String → String × List String
  | [] => ("", [])
  | f :: fs =>
    if isRemoteDockerfile f then
      let r := resolveContext abs dir rel fs
      (r.1, f :: r.2)
    else
      let a := abs f
      let cd := dir a
      (cd, rel cd a :: fs)

/-- Translation of the pull-policy selection in `BuildImage`:
`PullNever`, overridden to `PullIfMissing` by `config.Pull`, overridden to
`PullAlways` by `config.Pull_always`. -/
def pullPolicyOf (config : BuildInfo) : PullPolicy :=
  if config.pull_always then .pullAlways
  else if config.pull then .pullIfMissing
  else .pullNever

/-- Translation of the manifest-type dispatch in `BuildImage`: an empty
requested format defaults to "oci"; a format starting with "oci" or
"docker" maps to the corresponding media type; anything else is the
invalid-argument fault `unrecognized image type`. -/
def resolveManifestType (image_format : String) : Except String String :=
  let manifestType := if image_format != "" then image_format else "oci"
  if hasPrefix manifestType "oci" then .ok ociV1ImageManifest
  else if hasPrefix manifestType "docker" then .ok dockerv2ImageManifest
  else .error ("unrecognized image type \"" ++ manifestType ++ "\"")

/-- Mirror of the `buildah.NamespaceOption` literal `hostNetwork` in
`BuildImage`: the network namespace option set to the host namespace. -/
def hostNetwork : NamespaceOption :=
  { name := networkNamespace, host := true, path := "" }

/-- Translation of the `buildah.CommonBuildOptions` literal assembled by
`BuildImage`. -/
def commonBuildOptionsOf (config : BuildInfo) (memoryLimit memorySwap : Int) :
    CommonBuildOptions :=
  { addHost := config.add_hosts
    cgroupParent := config.cgroup_parent
    cpuPeriod := toUInt64Nat config.cpu_period
    cpuQuota := config.cpu_quota
    cpuSetCPUs := config.cpuset_cpus
    cpuSetMems := config.cpuset_mems
    memory := memoryLimit
    memorySwap := memorySwap
    shmSize := config.shm_size
    ulimit := config.ulimit
    volumes := config.volume }

/-- Translation of the `imagebuildah.BuildOptions` literal assembled by
`BuildImage` before scheduling the background build. -/
def buildOptionsOf (config : BuildInfo) (contextDir : String)
    (manifestType : String) (memoryLimit memorySwap : Int) : BuildOptions :=
  { contextDirectory := contextDir
    pullPolicy := pullPolicyOf config
    quiet := false
    args := config.build_args
    additionalTags := config.tags
    outputFormat := manifestType
    commonBuildOpts := commonBuildOptionsOf config memoryLimit memorySwap
    squash := config.squash
    labels := config.label
    annotations := config.annotations
    namespaceOptions := [hostNetwork] }

/-- One observed interaction of the poll loop of `BuildImage` with the
background build task.  `line s` — `output.ReadString` returned a complete
line `s`; `readErr e` — `ReadString` failed with a non-EOF error;
`eofPending` — `ReadString` hit EOF and the completion channel had nothing
yet; `eofDone r` — `ReadString` hit EOF and the completion channel
delivered the build result (`none` success, `some e` failure). -/
inductive BuildEvent
  | line (s : String)
  | readErr (e : String)
  | eofPending
  | eofDone (result : Option String)
deriving DecidableEq, Repr

/-- Outcome of the poll loop of `BuildImage`: it broke out on build
success carrying the accumulated log batch, returned on an error, or is
still polling when the supplied event trace ran out. -/
inductive LoopOutcome
  | success (log : List String)
  | errored (msg : String)
  | running (log : List String)
deriving DecidableEq, Repr

/-- Translation of the poll loop of `BuildImage`.  Each event drives one
iteration: a complete line is appended to the local batch; on EOF with no
completion signal, a streaming caller (`wantsMore`) is flushed the batch
as one partial reply and the batch is cleared, while a non-streaming
caller just keeps accumulating; a completion signal carrying an error, or
a read error, terminates with `ReplyErrorOccurred`; a successful
completion signal breaks out of the loop with the current batch.  Returns
the replies sent from inside the loop together with the outcome. -/
def buildLoop (wantsMore : Bool) :
    List BuildEvent → List String → List Reply × LoopOutcome
  | [], log => ([], .running log)
  | .line s :: evs, log => buildLoop wantsMore evs (log ++ [s])
  | .readErr e :: _, _ => ([.errorOccurred e], .errored e)
  | .eofPending :: evs, log =>
    if wantsMore then
      let r := buildLoop wantsMore evs []
      (.buildChunk log :: r.1, r.2)
    else
      buildLoop wantsMore evs log
  | .eofDone none :: _, log => ([], .success log)
  | .eofDone (some e) :: _, _ => ([.errorOccurred e], .errored e)

/-- How a `BuildImage` call ended: `replies rs` — the handler returned
normally having sent `rs`; `panicked rs` — the handler hit the unguarded
`config.Tags[0]` index with an empty tag list (a Go index-out-of-range
panic) after sending `rs`; `polling rs` — the supplied event trace ran out
while the loop was still polling, `rs` sent so far. -/
inductive BuildRun
  | replies (rs : List Reply)
  | panicked (rs : List Reply)
  | polling (rs : List Reply)
deriving DecidableEq, Repr

/-- Full observable outcome of a `BuildImage` call: `sched` is `some opts`
exactly when the background build task was launched, recording the build
options handed to it; `run` is how the handler ended. -/
structure BuildOutcome where
  sched : Option BuildOptions
  run : BuildRun
deriving DecidableEq, Repr

/-- Translation of `BuildImage`.  Oracles: `abs`/`dir`/`rel` stand for
`filepath.Abs`/`Dir`/`Rel`; `ramInBytes` for `units.RAMInBytes`; `lookup`
for `ImageRuntime().NewFromLocal`, returning the image ID; `wantsMore` for
`call.WantsMore()`; `events` for the interleaving the poll loop observes
from the background build task.  The handler resolves the context
directory, validates the manifest format and the memory strings, schedules
the build, runs the poll loop, and on success resolves the new image by
`config.Tags[0]` — an unguarded index. -/
def BuildImage (abs : String → String) (dir : String → String)
    (rel : String → String → String) (ramInBytes : String → Except String Int)
    (lookup : String → Except String String) (wantsMore : Bool)
    (events : List BuildEvent) (config : BuildInfo) : BuildOutcome :=
  let rc := resolveContext abs dir rel config.dockerfile
  match resolveManifestType config.image_format with
  | .error e => { sched := none, run := .replies [.errorOccurred e] }
  | .ok manifestType =>
    match (if config.memory != "" then ramInBytes config.memory else .ok 0) with
    | .error e => { sched := none, run := .replies [.errorOccurred e] }
    | .ok memoryLimit =>
      match (if config.memory_swap != "" then ramInBytes config.memory_swap else .ok 0) with
      | .error e => { sched := none, run := .replies [.errorOccurred e] }
      | .ok memorySwap =>
        let opts := buildOptionsOf config rc.1 manifestType memoryLimit memorySwap
        let r := buildLoop wantsMore events []
        match r.2 with
        | .errored _ => { sched := some opts, run := .replies r.1 }
        | .running _ => { sched := some opts, run := .polling r.1 }
        | .success log =>
          match config.tags.get? 0 with
          | none => { sched := some opts, run := .panicked r.1 }
          | some firstTag =>
            match lookup firstTag with
            | .error e => { sched := some opts, run := .replies (r.1 ++ [.errorOccurred e]) }
            | .ok id => { sched := some opts, run := .replies (r.1 ++ [.buildFinal log id]) }

/-- One image returned by `ImageRuntime().GetPruneImages()`, together
with the outcome its `Remove(force)` call would report (`some e` is a
failure with message `e`). -/
structure PruneImage where
  id : String
  removeErr : Bool → Option String

/-- Force flag `ImagesPrune` hands to every `Remove` call: the literal
`true` in `i.Remove(true)`. -/
def pruneRemoveForce : Bool := true

/-- Reply of `ImagesPrune`: either `ReplyImagesPrune` with the removed
IDs, or `ReplyErrorOccurred`. -/
inductive PruneReply
  | prune (pruned : List String)
  | errorOccurred (msg : String)
deriving DecidableEq, Repr

/-- Translation of the removal loop of `ImagesPrune`: each prune image is
removed with force `pruneRemoveForce`; the first failure returns
`ReplyErrorOccurred` at once.  Returns the IDs on which `Remove` was
invoked together with the reply. -/
def pruneLoop : List PruneImage → List String → List String × PruneReply
  | [], pruned => ([], .prune pruned)
  | img :: rest, pruned =>
    match img.removeErr pruneRemoveForce with
    | some e => ([img.id], .errorOccurred e)
    | none =>
      let r := pruneLoop rest (pruned ++ [img.id])
      (img.id :: r.1, r.2)

/-- Translation of `ImagesPrune`.  `pruneImages` stands for the result of
`ImageRuntime().GetPruneImages()` (an error there is returned raw, before
any removal). -/
def ImagesPrune (pruneImages : Except String (List PruneImage)) :
    List String × Except String PruneReply :=
  match pruneImages with
  | .error e => ([], .error e)
  | .ok imgs =>
    let r := pruneLoop imgs []
    (r.1, .ok r.2)

/-- One search result from `docker.SearchRegistry`. -/
structure SearchResult where
  name : String
  description : String
  isOfficial : Bool
  isAutomated : Bool
  starCount : Nat
deriving DecidableEq, Repr

/-- Mirror of `iopodman.ImageSearch`. -/
structure ImageSearch where
  description : String
  is_official : Bool
  is_automated : Bool
  name : String
  star_count : Int
deriving DecidableEq, Repr

/-- Translation of the `iopodman.ImageSearch` literal in the inner loop of
`SearchImage`. -/
def toImageSearch (r : SearchResult) : ImageSearch :=
  { description := r.description
    is_official := r.isOfficial
    is_automated := r.isAutomated
    name := r.name
    star_count := Int.ofNat r.starCount }

/-- One configured registry, together with the outcome
`docker.SearchRegistry` would report for it on this call. -/
structure Registry where
  host : String
  searched : Except String (List SearchResult)

/-- Reply of `SearchImage`. -/
inductive SearchReply
  | search (results : List ImageSearch)
  | errorOccurred (msg : String)
deriving DecidableEq, Repr

/-- Translation of the registry loop of `SearchImage`: a per-registry
failure is skipped when more than one registry is configured (`n` is the
length of the full configured list, `len(registries) > 1` in the source)
and fatal otherwise; results of successful registries are appended in
registry order. -/
def searchLoop (n : Nat) : List Registry → List ImageSearch → SearchReply
  | [], acc => .search acc
  | reg :: rest, acc =>
    match reg.searched with
    | .error e => if n > 1 then searchLoop n rest acc else .errorOccurred e
    | .ok results => searchLoop n rest (acc ++ results.map toImageSearch)

/-- Translation of `SearchImage`.  `registries` stands for the result of
`sysreg.GetRegistries()`; a failure there is the fault
`unable to get system registries`. -/
def SearchImage (registries : Except String (List Registry)) : SearchReply :=
  match registries with
  | .error e => .errorOccurred ("unable to get system registries: \"" ++ e ++ "\"")
  | .ok regs => searchLoop regs.length regs []

/-- Constant `dockerarchive.Transport.Name()` from the vendored
containers/image library: the name of the docker-archive transport. -/
def dockerArchiveTransportName : String := "docker-archive"

/-- Scheme token `PullImage` matches against: the docker-archive transport
name followed by the delimiting colon, `dockerarchive.Transport.Name()+":"`
in the source. -/
def dockerArchiveScheme : String := dockerArchiveTransportName ++ ":"

/-- Oracles of `PullImage` for its external collaborators:
`parseImageName` stands for `alltransports.ParseImageName` (the parsed
reference abstracted to a token); `loadFromArchive` for
`ImageRuntime().LoadFromArchiveReference`, returning the IDs of the images
found in the archive; `registryPull` for `ImageRuntime().New`, the
registry pull returning the new image ID. -/
structure PullEnv where
  parseImageName : String → Except String String
  loadFromArchive : String → Except String (List String)
  registryPull : String → Except String String

/-- Outcome of a `PullImage` call: `pull` is `ReplyPullImage`;
`errorOccurred` is `ReplyErrorOccurred`; `rawError` is an error returned
to varlink without a reply (the `errors.Wrapf` returns of the archive
branch); `panicked` is the unguarded `newImage[0]` index on an archive
that yielded no images. -/
inductive PullReply
  | pull (id : String)
  | errorOccurred (msg : String)
  | rawError (msg : String)
  | panicked
deriving DecidableEq, Repr

/-- Translation of the docker-archive branch of `PullImage`: parse the
name, load the archive, and reply with the ID of the first loaded image
(`newImage[0].ID()`).  No registry pull is consulted on this branch. -/
def pullArchive (env : PullEnv) (name : String) : PullReply :=
  match env.parseImageName name with
  | .error e => .rawError ("error parsing \"" ++ name ++ "\": " ++ e)
  | .ok srcRef =>
    match env.loadFromArchive srcRef with
    | .error e => .rawError ("error pulling image from \"" ++ name ++ "\": " ++ e)
    | .ok ids =>
      match ids.get? 0 with
      | none => .panicked
      | some id => .pull id

/-- Translation of the registry branch of `PullImage`: `ImageRuntime().New`
pulls from a registry and the reply carries the new image ID. -/
def pullRegistry (env : PullEnv) (name : String) : PullReply :=
  match env.registryPull name with
  | .error e => .errorOccurred ("unable to pull " ++ name ++ ": " ++ e)
  | .ok id => .pull id

/-- Translation of `PullImage`: a name starting with the docker-archive
scheme token (transport name plus colon) takes the local archive branch;
every other name takes the registry branch. -/
def PullImage (env : PullEnv) (name : String) : PullReply :=
  if hasPrefix name dockerArchiveScheme then pullArchive env name
  else pullRegistry env name

/-- One entry of the history reported by `newImage.History` for an image
(the fields the handler reads). -/
structure HistoryEnt where
  id : String
  created : String
  createdBy : String
  size : Int
  comment : String
deriving DecidableEq, Repr

/-- Mirror of `iopodman.ImageHistory`. -/
structure ImageHistory where
  id : String
  created : String
  createdBy : String
  tags : List String
  size : Int
  comment : String
deriving DecidableEq, Repr

/-- Translation of the entry loop of `HistoryImage`: every history entry
is mapped to an `iopodman.ImageHistory` whose `Tags` field is
`newImage.Names()`, the image's current tag names. -/
def historiesOf (names : List String) (history : List HistoryEnt) :
    List ImageHistory :=
  history.map fun h =>
    { id := h.id, created := h.created, createdBy := h.createdBy
      tags := names, size := h.size, comment := h.comment }

/-- An image as `HistoryImage` sees it: its current tag names
(`newImage.Names()`) and the outcome of `newImage.History`. -/
structure HistImage where
  names : List String
  history : Except String (List HistoryEnt)

/-- Reply of `HistoryImage`. -/
inductive HistoryReply
  | history (entries : List ImageHistory)
  | imageNotFound (name : String)
  | errorOccurred (msg : String)
deriving DecidableEq, Repr

/-- Translation of `HistoryImage`.  `lookup` stands for
`ImageRuntime().NewFromLocal`. -/
def HistoryImage (lookup : String → Except String HistImage) (name : String) :
    HistoryReply :=
  match lookup name with
  | .error _ => .imageNotFound name
  | .ok img =>
    match img.history with
    | .error e => .errorOccurred e
    | .ok hist => .history (historiesOf img.names hist)

/-- Constant `manifest.DockerV2Schema1SignedMediaType` from the vendored
containers/image library. -/
def dockerV2Schema1SignedMediaType : String := "application/vnd.docker.distribution.manifest.v1+prettyjws"

/-- Translation of the format switch of `PushImage`: the manifest type
defaults to the empty string; "oci", "v2s1", "v2s2" and "docker" map to
the corresponding media types; any other non-empty format is the
`unknown format` fault (error text as in the source, typo included). -/
def pushManifestType (format : String) : Except String String :=
  if format != "" then
    if format == "oci" then .ok ociV1ImageManifest
    else if format == "v2s1" then .ok dockerV2Schema1SignedMediaType
    else if format == "v2s2" || format == "docker" then .ok dockerv2ImageManifest
    else .error ("unknown format \"" ++ format ++
      "\". Choose on of the supported formats: 'oci', 'v2s1', or 'v2s2'")
  else .ok ""

/-- Oracles of `PushImage`: `lookup` stands for
`ImageRuntime().NewFromLocal` (returning the image ID), `parseCreds` for
`util.ParseRegistryCreds`, and `push` for
`PushImageToHeuristicDestination`, keyed by the destination name and the
manifest type (`some e` is a push failure). -/
structure PushEnv where
  lookup : String → Except String String
  parseCreds : String → Except String String
  push : String → String → Option String

/-- Reply of `PushImage`: `pushImage` is `ReplyPushImage` with the source
image's ID; `rawError` is an error returned to varlink without a reply
(the credential-parsing return). -/
inductive PushReply
  | pushImage (id : String)
  | imageNotFound (msg : String)
  | errorOccurred (msg : String)
  | rawError (msg : String)
deriving DecidableEq, Repr

/-- Observable outcome of a `PushImage` call: `pushedTo` is `some dest`
exactly when `PushImageToHeuristicDestination` was invoked, recording the
destination name handed to it. -/
structure PushOutcome where
  pushedTo : Option String
  reply : PushReply
deriving DecidableEq, Repr

/-- Translation of `PushImage`: resolve the local image, pick the
destination name (`destname := name; if tag != "" { destname = tag }`),
parse credentials when supplied, validate the format, and push to the
destination. -/
def PushImage (env : PushEnv) (name tag creds format : String) : PushOutcome :=
  match env.lookup name with
  | .error e => { pushedTo := none, reply := .imageNotFound e }
  | .ok id =>
    let destname := if tag != "" then tag else name
    match (if creds != "" then (env.parseCreds creds).map some else .ok none) with
    | .error e => { pushedTo := none, reply := .rawError e }
    | .ok _ =>
      match pushManifestType format with
      | .error e => { pushedTo := none, reply := .errorOccurred e }
      | .ok manifestType =>
        match env.push destname manifestType with
        | some e => { pushedTo := some destname, reply := .errorOccurred e }
        | none => { pushedTo := some destname, reply := .pushImage id }

/-- Outcome of `ImageRuntime().NewFromLocal` as `ImageExists` inspects it:
an image was found, the error's cause was `image.ErrNoSuchImage`, or some
other error occurred. -/
inductive LookupResult
  | found (id : String)
  | noSuchImage
  | otherError (e : String)
deriving DecidableEq, Repr

/-- Reply of `ImageExists`: `ReplyImageExists` carries an integer, or
`ReplyErrorOccurred`. -/
inductive ExistsReply
  | imageExists (n : Nat)
  | errorOccurred (msg : String)
deriving DecidableEq, Repr

/-- Translation of `ImageExists`: a no-such-image lookup replies `1`, any
other lookup error is `ReplyErrorOccurred`, and a found image replies
`0`. -/
def ImageExists (lookup : String → LookupResult) (name : String) : ExistsReply :=
  match lookup name with
  | .noSuchImage => .imageExists 1
  | .otherError e => .errorOccurred e
  | .found _ => .imageExists 0

/-- Replies a `BuildRun` sent, whatever way the handler ended. -/
def sentReplies : BuildRun → List Reply
  | .replies rs => rs
  | .panicked rs => rs
  | .polling rs => rs

/-- Whether a reply is a streamed partial log batch (multi-reply framing). -/
def isChunk : Reply → Bool
  | .buildChunk _ => true
  | _ => false

/-- Number of log lines a reply carries. -/
def replyLogLines : Reply → Nat
  | .buildChunk l => l.length
  | .buildFinal l _ => l.length
  | .errorOccurred _ => 0

/-- Total number of log lines the replies of a run carry. -/
def sentLogLines (run : BuildRun) : Nat :=
  ((sentReplies run).map replyLogLines).sum

/-- Outcome of the poll loop as a function of the event trace alone: the
lines accumulate until a terminating event; a successful completion ends
with the lines drained since the last flush point — for a non-streaming
caller, all lines of the trace. -/
def loopSpec : List BuildEvent → LoopOutcome
  | [] => .running []
  | .line s :: evs =>
    match loopSpec evs with
    | .success l => .success (s :: l)
    | .errored e => .errored e
    | .running l => .running (s :: l)
  | .readErr e :: _ => .errored e
  | .eofPending :: evs => loopSpec evs
  | .eofDone none :: _ => .success []
  | .eofDone (some e) :: _ => .errored e

/-- For a non-streaming caller the poll loop sends nothing from inside the
loop and its outcome accumulates every drained line onto the batch. -/
theorem buildLoop_false (evs : List BuildEvent) (acc : List String) :
    buildLoop false evs acc =
      match loopSpec evs with
      | .success l => ([], .success (acc ++ l))
      | .errored e => ([.errorOccurred e], .errored e)
      | .running l => ([], .running (acc ++ l)) := by
  induction evs generalizing acc with
  | nil => simp [buildLoop, loopSpec]
  | cons ev evs ih =>
    cases ev with
    | line s =>
      simp only [buildLoop, loopSpec]
      rw [ih]
      cases h : loopSpec evs <;> simp
    | readErr e => simp [buildLoop, loopSpec]
    | eofPending =>
      simp only [buildLoop, loopSpec, Bool.false_eq_true, if_false]
      exact ih acc
    | eofDone r =>
      cases r <;> simp [buildLoop, loopSpec]

/-- Complete case analysis of how a non-streaming `BuildImage` call ends:
each validation failure, a failed build, an exhausted event trace, the
unguarded first-tag index, the final lookup, and the terminal reply with
the whole accumulated log. -/
theorem buildImage_false_run (abs dir : String → String) (rel : String → String → String)
    (ram : String → Except String Int) (lookup : String → Except String String)
    (events : List BuildEvent) (config : BuildInfo) :
    (BuildImage abs dir rel ram lookup false events config).run =
      match resolveManifestType config.image_format with
      | .error e => .replies [.errorOccurred e]
      | .ok _ =>
        match (if config.memory != "" then ram config.memory else .ok 0) with
        | .error e => .replies [.errorOccurred e]
        | .ok _ =>
          match (if config.memory_swap != "" then ram config.memory_swap else .ok 0) with
          | .error e => .replies [.errorOccurred e]
          | .ok _ =>
            match loopSpec events with
            | .errored e => .replies [.errorOccurred e]
            | .running _ => .polling []
            | .success l =>
              match config.tags.get? 0 with
              | none => .panicked []
              | some t =>
                match lookup t with
                | .error e => .replies [.errorOccurred e]
                | .ok id => .replies [.buildFinal l id] := by
  unfold BuildImage
  cases hm : resolveManifestType config.image_format with
  | error e => simp
  | ok mt =>
    cases hmem : (if config.memory != "" then ram config.memory else .ok 0) with
    | error e => simp
    | ok ml =>
      cases hms : (if config.memory_swap != "" then ram config.memory_swap else .ok 0) with
      | error e => simp
      | ok ms =>
        simp only [buildLoop_false]
        cases hl : loopSpec events with
        | errored e => simp
        | running l => simp
        | success l =>
          cases ht : config.tags.get? 0 with
          | none => simp
          | some t =>
            cases hlk : lookup t with
            | error e => simp [hlk]
            | ok id => simp [hlk]

/-- Condition under which the manifest-type dispatch of `BuildImage` hits
its rejection branch, exactly as the source tests it. -/
def unrecognizedImageFormat (fmt : String) : Bool :=
  let m := if fmt != "" then fmt else "oci"
  !(hasPrefix m "oci") && !(hasPrefix m "docker")

/-- Shape of the one terminal reply of a non-streaming `BuildImage` call:
either the terminal fault, or the terminal `ReplyBuildImage` carrying the
whole accumulated log and the ID the first requested tag resolved to. -/
def terminalShape (lookup : String → Except String String) (events : List BuildEvent)
    (tags : List String) (rs : List Reply) : Prop :=
  (∃ e, rs = [Reply.errorOccurred e]) ∨
  (∃ l id t, loopSpec events = .success l ∧ tags.get? 0 = some t ∧
    lookup t = .ok id ∧ rs = [Reply.buildFinal l id])

/-- What `BuildImage` schedules: nothing when validation fails, otherwise
the background build with the assembled options. -/
theorem buildImage_sched (abs dir : String → String) (rel : String → String → String)
    (ram : String → Except String Int) (lookup : String → Except String String)
    (wantsMore : Bool) (events : List BuildEvent) (config : BuildInfo) :
    (BuildImage abs dir rel ram lookup wantsMore events config).sched =
      match resolveManifestType config.image_format with
      | .error _ => none
      | .ok mt =>
        match (if config.memory != "" then ram config.memory else .ok 0) with
        | .error _ => none
        | .ok ml =>
          match (if config.memory_swap != "" then ram config.memory_swap else .ok 0) with
          | .error _ => none
          | .ok ms =>
            some (buildOptionsOf config (resolveContext abs dir rel config.dockerfile).1
              mt ml ms) := by
  unfold BuildImage
  cases hm : resolveManifestType config.image_format with
  | error e => simp
  | ok mt =>
    cases hmem : (if config.memory != "" then ram config.memory else .ok 0) with
    | error e => simp
    | ok ml =>
      cases hms : (if config.memory_swap != "" then ram config.memory_swap else .ok 0) with
      | error e => simp
      | ok ms =>
        cases hl : (buildLoop wantsMore events []).2 with
        | errored e => simp [hl]
        | running l => simp [hl]
        | success l =>
          cases ht : config.tags.get? 0 with
          | none => simp [hl, ht]
          | some t =>
            cases hlk : lookup t with
            | error e => simp [hl, ht, hlk]
            | ok id => simp [hl, ht, hlk]

/-- C9: on the success path `BuildImage` resolves the final image by the
unguarded index `config.Tags[0]`: the call ends in the index-out-of-range
panic exactly when the request validated, the background build completed
successfully, and the request's tag list is empty — so the success path is
safe only under the precondition that at least one tag name was
requested. -/
theorem buildImage_panics_iff_no_tags (abs dir : String → String)
    (rel : String → String → String) (ram : String → Except String Int)
    (lookup : String → Except String String) (wantsMore : Bool)
    (events : List BuildEvent) (config : BuildInfo) :
    (∃ rs, (BuildImage abs dir rel ram lookup wantsMore events config).run =
        BuildRun.panicked rs) ↔
      ((∃ mt, resolveManifestType config.image_format = .ok mt) ∧
       (∃ ml, (if config.memory != "" then ram config.memory else .ok 0) = .ok ml) ∧
       (∃ ms, (if config.memory_swap != "" then ram config.memory_swap else .ok 0) = .ok ms) ∧
       (∃ l, (buildLoop wantsMore events []).2 = .success l) ∧
       config.tags = []) := by
  unfold BuildImage
  cases hm : resolveManifestType config.image_format with
  | error e => simp [hm]
  | ok mt =>
    cases hmem : (if config.memory != "" then ram config.memory else .ok 0) with
    | error e => simp [hm, hmem]
    | ok ml =>
      cases hms : (if config.memory_swap != "" then ram config.memory_swap else .ok 0) with
      | error e => simp [hm, hmem, hms]
      | ok ms =>
        cases hl : (buildLoop wantsMore events []).2 with
        | errored e => simp [hm, hmem, hms, hl]
        | running l => simp [hm, hmem, hms, hl]
        | success l =>
          cases htags : config.tags with
          | nil => simp [hm, hmem, hms, hl, htags]
          | cons a as =>
            cases hlk : lookup a with
            | error e => simp [hm, hmem, hms, hl, htags, hlk]
            | ok id => simp [hm, hmem, hms, hl, htags, hlk]

/-- An unrecognized format makes the manifest dispatch of `BuildImage`
return the invalid-argument fault. -/
theorem resolveManifestType_unrecognized (fmt : String)
    (h : unrecognizedImageFormat fmt = true) :
    resolveManifestType fmt =
      .error ("unrecognized image type \"" ++
        (if fmt != "" then fmt else "oci") ++ "\"") := by
  unfold unrecognizedImageFormat at h
  unfold resolveManifestType
  generalize (if fmt != "" then fmt else "oci") = m at h ⊢
  simp only [Bool.and_eq_true, Bool.not_eq_true'] at h
  simp [h.1, h.2]

/-- C1: a build request whose output manifest format is unrecognized
fails synchronously with the invalid-argument fault
`unrecognized image type`: no background build is scheduled (`sched` is
`none`, so the outcome is the same for every possible build behaviour and
no image is created), the only reply is the fault, and zero log lines are
emitted. -/
theorem buildImage_unrecognized_format (abs dir : String → String)
    (rel : String → String → String) (ram : String → Except String Int)
    (lookup : String → Except String String) (wantsMore : Bool)
    (events : List BuildEvent) (config : BuildInfo)
    (h : unrecognizedImageFormat config.image_format = true) :
    BuildImage abs dir rel ram lookup wantsMore events config =
      { sched := none
        run := .replies [.errorOccurred ("unrecognized image type \"" ++
          (if config.image_format != "" then config.image_format else "oci") ++ "\"")] } ∧
    sentLogLines (BuildImage abs dir rel ram lookup wantsMore events config).run = 0 := by
  have hm := resolveManifestType_unrecognized config.image_format h
  have h1 : BuildImage abs dir rel ram lookup wantsMore events config =
      { sched := none
        run := .replies [.errorOccurred ("unrecognized image type \"" ++
          (if config.image_format != "" then config.image_format else "oci") ++ "\"")] } := by
    unfold BuildImage
    rw [hm]
  refine ⟨h1, ?_⟩
  rw [h1]
  rfl

/-- Concrete build request used by the witnesses: empty everywhere, one
requested tag, default format. -/
def sampleConfig : BuildInfo :=
  { dockerfile := [], tags := ["localhost/t:latest"], add_hosts := []
    cgroup_parent := "", cpu_period := 0, cpu_quota := 0, cpuset_cpus := ""
    cpuset_mems := "", memory := "", memory_swap := "", shm_size := ""
    ulimit := [], volume := [], squash := false, pull := false
    pull_always := false, image_format := "", build_args := [], label := []
    annotations := [] }

/-- Concrete build request with an unrecognized output manifest format. -/
def sampleBadFormatConfig : BuildInfo :=
  { sampleConfig with image_format := "weird" }

/-- Witness for C1: the concrete request with format "weird" is rejected
with the fault alone, nothing scheduled, zero log lines. -/
theorem buildImage_unrecognized_format_witness :
    BuildImage id id (fun _ p => p) (fun _ => Except.ok 0) (fun _ => Except.ok "i")
        true [BuildEvent.line "lost\n"] sampleBadFormatConfig =
      { sched := none
        run := .replies [.errorOccurred "unrecognized image type \"weird\""] } ∧
    sentLogLines (BuildImage id id (fun _ p => p) (fun _ => Except.ok 0)
        (fun _ => Except.ok "i") true [BuildEvent.line "lost\n"]
        sampleBadFormatConfig).run = 0 :=
  buildImage_unrecognized_format id id (fun _ p => p) (fun _ => Except.ok 0)
    (fun _ => Except.ok "i") true [BuildEvent.line "lost\n"] sampleBadFormatConfig
    (by decide)

/-- C2: a `BuildImage` call whose caller did not opt into streaming
(`WantsMore` false) never uses multi-reply framing — no partial log frames
at all, at most one reply in every outcome — and whenever the handler
returns replies it has sent exactly one, carrying either the terminal
fault or the full accumulated log together with the final image ID. -/
theorem buildImage_single_reply (abs dir : String → String)
    (rel : String → String → String) (ram : String → Except String Int)
    (lookup : String → Except String String) (events : List BuildEvent)
    (config : BuildInfo) :
    ((sentReplies (BuildImage abs dir rel ram lookup false events config).run).countP
        isChunk = 0 ∧
     (sentReplies (BuildImage abs dir rel ram lookup false events config).run).length ≤ 1) ∧
    (∀ rs, (BuildImage abs dir rel ram lookup false events config).run =
        BuildRun.replies rs →
      rs.length = 1 ∧ terminalShape lookup events config.tags rs) := by
  have hrun := buildImage_false_run abs dir rel ram lookup events config
  cases hm : resolveManifestType config.image_format with
  | error e =>
    simp only [hm] at hrun
    rw [hrun]
    refine ⟨⟨rfl, by simp [sentReplies]⟩, ?_⟩
    intro rs hrs
    cases hrs
    exact ⟨rfl, Or.inl ⟨e, rfl⟩⟩
  | ok mt =>
    simp only [hm] at hrun
    cases hmem : (if config.memory != "" then ram config.memory else .ok 0) with
    | error e =>
      simp only [hmem] at hrun
      rw [hrun]
      refine ⟨⟨rfl, by simp [sentReplies]⟩, ?_⟩
      intro rs hrs
      cases hrs
      exact ⟨rfl, Or.inl ⟨e, rfl⟩⟩
    | ok ml =>
      simp only [hmem] at hrun
      cases hms : (if config.memory_swap != "" then ram config.memory_swap else .ok 0) with
      | error e =>
        simp only [hms] at hrun
        rw [hrun]
        refine ⟨⟨rfl, by simp [sentReplies]⟩, ?_⟩
        intro rs hrs
        cases hrs
        exact ⟨rfl, Or.inl ⟨e, rfl⟩⟩
      | ok ms =>
        simp only [hms] at hrun
        cases hl : loopSpec events with
        | errored e =>
          simp only [hl] at hrun
          rw [hrun]
          refine ⟨⟨rfl, by simp [sentReplies]⟩, ?_⟩
          intro rs hrs
          cases hrs
          exact ⟨rfl, Or.inl ⟨e, rfl⟩⟩
        | running l =>
          simp only [hl] at hrun
          rw [hrun]
          refine ⟨⟨rfl, by simp [sentReplies]⟩, ?_⟩
          intro rs hrs
          cases hrs
        | success l =>
          simp only [hl] at hrun
          cases ht : config.tags.get? 0 with
          | none =>
            simp only [ht] at hrun
            rw [hrun]
            refine ⟨⟨rfl, by simp [sentReplies]⟩, ?_⟩
            intro rs hrs
            cases hrs
          | some t =>
            simp only [ht] at hrun
            cases hlk : lookup t with
            | error e =>
              simp only [hlk] at hrun
              rw [hrun]
              refine ⟨⟨rfl, by simp [sentReplies]⟩, ?_⟩
              intro rs hrs
              cases hrs
              exact ⟨rfl, Or.inl ⟨e, rfl⟩⟩
            | ok id =>
              simp only [hlk] at hrun
              rw [hrun]
              refine ⟨⟨rfl, by simp [sentReplies]⟩, ?_⟩
              intro rs hrs
              cases hrs
              exact ⟨rfl, Or.inr ⟨l, id, t, hl, ht, hlk, rfl⟩⟩

/-- Witness for C2: a concrete non-streaming run over a two-line build
that completes successfully sends exactly the one terminal reply with both
lines and the image ID. -/
theorem buildImage_single_reply_witness :
    (BuildImage id id (fun _ p => p) (fun _ => Except.ok 0)
        (fun _ => Except.ok "imgid") false
        [BuildEvent.line "a\n", BuildEvent.eofPending, BuildEvent.line "b\n",
         BuildEvent.eofDone none] sampleConfig).run =
      BuildRun.replies [Reply.buildFinal ["a\n", "b\n"] "imgid"] ∧
    [Reply.buildFinal ["a\n", "b\n"] "imgid"].length = 1 ∧
    terminalShape (fun _ => Except.ok "imgid")
      [BuildEvent.line "a\n", BuildEvent.eofPending, BuildEvent.line "b\n",
       BuildEvent.eofDone none] sampleConfig.tags
      [Reply.buildFinal ["a\n", "b\n"] "imgid"] :=
  ⟨rfl,
   (buildImage_single_reply id id (fun _ p => p) (fun _ => Except.ok 0)
      (fun _ => Except.ok "imgid")
      [BuildEvent.line "a\n", BuildEvent.eofPending, BuildEvent.line "b\n",
       BuildEvent.eofDone none] sampleConfig).2
      [Reply.buildFinal ["a\n", "b\n"] "imgid"] rfl⟩

/-- Concrete build request with an empty tag list. -/
def sampleNoTagsConfig : BuildInfo :=
  { sampleConfig with tags := [] }

/-- Witness for C9: a concrete request with no tags whose build completes
successfully ends in the index panic. -/
theorem buildImage_panics_iff_no_tags_witness :
    ∃ rs, (BuildImage id id (fun _ p => p) (fun _ => Except.ok 0)
        (fun _ => Except.ok "x") false [BuildEvent.eofDone none]
        sampleNoTagsConfig).run = BuildRun.panicked rs :=
  (buildImage_panics_iff_no_tags id id (fun _ p => p) (fun _ => Except.ok 0)
      (fun _ => Except.ok "x") false [BuildEvent.eofDone none]
      sampleNoTagsConfig).mpr
    ⟨⟨ociV1ImageManifest, rfl⟩, ⟨0, rfl⟩, ⟨0, rfl⟩, ⟨[], rfl⟩, rfl⟩

/-- C8: every build `BuildImage` schedules runs with the host network
namespace: the namespace options handed to the background build are
exactly the one `hostNetwork` entry — the option naming the network
namespace with `Host` set — and nothing in the request can override it. -/
theorem buildImage_host_network_namespace (abs dir : String → String)
    (rel : String → String → String) (ram : String → Except String Int)
    (lookup : String → Except String String) (wantsMore : Bool)
    (events : List BuildEvent) (config : BuildInfo) (opts : BuildOptions)
    (h : (BuildImage abs dir rel ram lookup wantsMore events config).sched = some opts) :
    opts.namespaceOptions = [hostNetwork] ∧
    hostNetwork.name = networkNamespace ∧ hostNetwork.host = true := by
  rw [buildImage_sched] at h
  refine ⟨?_, rfl, rfl⟩
  split at h
  · exact absurd h (by simp)
  · split at h
    · exact absurd h (by simp)
    · split at h
      · exact absurd h (by simp)
      · have h2 := Option.some.inj h
        subst h2
        rfl

/-- Witness for C8: a concrete scheduled build carries exactly the host
network namespace option. -/
theorem buildImage_host_network_namespace_witness :
    (BuildImage id id (fun _ p => p) (fun _ => Except.ok 0) (fun _ => Except.ok "x")
        false [] sampleConfig).sched =
      some (buildOptionsOf sampleConfig "" ociV1ImageManifest 0 0) ∧
    ((buildOptionsOf sampleConfig "" ociV1ImageManifest 0 0).namespaceOptions =
        [hostNetwork] ∧
      hostNetwork.name = networkNamespace ∧ hostNetwork.host = true) :=
  ⟨rfl,
   buildImage_host_network_namespace id id (fun _ p => p) (fun _ => Except.ok 0)
     (fun _ => Except.ok "x") false [] sampleConfig
     (buildOptionsOf sampleConfig "" ociV1ImageManifest 0 0) rfl⟩

/-- A run of the prune loop over images that all remove cleanly invokes
`Remove` on every member in order and replies with all their IDs. -/
theorem pruneLoop_all_ok (imgs : List PruneImage) (acc : List String)
    (h : ∀ i ∈ imgs, i.removeErr pruneRemoveForce = none) :
    pruneLoop imgs acc =
      (imgs.map PruneImage.id, .prune (acc ++ imgs.map PruneImage.id)) := by
  induction imgs generalizing acc with
  | nil => simp [pruneLoop]
  | cons img rest ih =>
    have himg : img.removeErr pruneRemoveForce = none := h img (by simp)
    simp only [pruneLoop, himg]
    rw [ih (acc ++ [img.id]) (fun i hi => h i (by simp [hi]))]
    simp

/-- C3 (amended): `ImagesPrune` removes the prune set member-by-member
with force `true` and aborts at the first `Remove` failure — the members
after the failing one are never touched — but the reply in the failure
case is `ReplyErrorOccurred` carrying only the error: the IDs removed
before the failure are discarded, not returned (IDs are only replied on
the all-success path). -/
theorem imagesPrune_fail_fast (pre suf : List PruneImage) (img : PruneImage)
    (e : String) (hpre : ∀ i ∈ pre, i.removeErr pruneRemoveForce = none)
    (himg : img.removeErr pruneRemoveForce = some e) :
    ImagesPrune (.ok (pre ++ img :: suf)) =
      (pre.map PruneImage.id ++ [img.id], .ok (.errorOccurred e)) := by
  unfold ImagesPrune
  have main : ∀ (p : List PruneImage) (acc : List String),
      (∀ i ∈ p, i.removeErr pruneRemoveForce = none) →
      pruneLoop (p ++ img :: suf) acc =
        (p.map PruneImage.id ++ [img.id], .errorOccurred e) := by
    intro p
    induction p with
    | nil =>
      intro acc _
      simp [pruneLoop, himg]
    | cons q rest ih =>
      intro acc hq
      have hqn : q.removeErr pruneRemoveForce = none := hq q (by simp)
      simp only [List.cons_append, pruneLoop, hqn, List.append_eq]
      rw [ih (acc ++ [q.id]) (fun i hi => hq i (by simp [hi]))]
      simp
  have hm := main pre [] hpre
  simp [hm]

/-- Witness for C3 (amended): a concrete prune run over "a" (removes
cleanly), "b" (fails with "boom") and "c": `Remove` is invoked on "a" and
"b" only, and the reply is the bare error. -/
theorem imagesPrune_fail_fast_witness :
    ImagesPrune (.ok [⟨"a", fun _ => none⟩, ⟨"b", fun _ => some "boom"⟩,
        ⟨"c", fun _ => none⟩]) =
      (["a", "b"], .ok (.errorOccurred "boom")) :=
  imagesPrune_fail_fast [⟨"a", fun _ => none⟩] [⟨"c", fun _ => none⟩]
    ⟨"b", fun _ => some "boom"⟩ "boom"
    (fun i hi => by simp at hi; subst hi; rfl) rfl

/-- Counterexample for C3 as stated: image "a" is successfully removed
before "b" fails, yet the failure reply is `ReplyErrorOccurred "boom"`
alone — a reply shape with no field for the successfully removed IDs, so
"a" is not returned alongside the error. -/
theorem imagesPrune_reply_drops_removed_ids :
    ImagesPrune (.ok [⟨"a", fun _ => none⟩, ⟨"b", fun _ => some "boom"⟩]) =
      (["a", "b"], .ok (.errorOccurred "boom")) := rfl

/-- Results of the successful registries of a search, concatenated in
registry order (a failing registry contributes nothing). -/
def successResults : List Registry → List ImageSearch
  | [] => []
  | reg :: rest =>
    (match reg.searched with
     | .error _ => []
     | .ok results => results.map toImageSearch) ++ successResults rest

/-- With at least two configured registries every per-registry failure is
swallowed and the loop accumulates the successful results in order. -/
theorem searchLoop_ge_two (n : Nat) (hn : 2 ≤ n) (regs : List Registry)
    (acc : List ImageSearch) :
    searchLoop n regs acc = .search (acc ++ successResults regs) := by
  induction regs generalizing acc with
  | nil => simp [searchLoop, successResults]
  | cons reg rest ih =>
    cases hs : reg.searched with
    | error e =>
      have : n > 1 := hn
      simp only [searchLoop, hs, if_pos this, successResults]
      rw [ih acc]
      simp
    | ok results =>
      simp only [searchLoop, hs, successResults]
      rw [ih (acc ++ results.map toImageSearch)]
      simp

/-- C4: with N ≥ 2 configured registries `SearchImage` swallows every
per-registry failure and replies with the successful registries' results
concatenated in registry order; with N = 1 a failure of that registry is
fatal and returned as the fault. -/
theorem searchImage_registry_failures (regs : List Registry) (reg : Registry)
    (e : String) :
    (2 ≤ regs.length → SearchImage (.ok regs) = .search (successResults regs)) ∧
    (reg.searched = .error e → SearchImage (.ok [reg]) = .errorOccurred e) := by
  constructor
  · intro hn
    have h2 := searchLoop_ge_two regs.length hn regs []
    unfold SearchImage
    simp [h2]
  · intro hs
    unfold SearchImage
    simp [searchLoop, hs]

/-- Witness for C4: two registries where the first fails — its failure is
swallowed and the second registry's result is returned — and a single
registry whose failure is fatal. -/
theorem searchImage_registry_failures_witness :
    SearchImage (.ok [⟨"reg.a", .error "auth"⟩,
        ⟨"reg.b", .ok [⟨"img", "d", false, false, 3⟩]⟩]) =
      .search [⟨"d", false, false, "img", 3⟩] ∧
    SearchImage (.ok [⟨"reg.a", .error "auth"⟩]) = .errorOccurred "auth" :=
  ⟨by
    have h := (searchImage_registry_failures
      [⟨"reg.a", .error "auth"⟩, ⟨"reg.b", .ok [⟨"img", "d", false, false, 3⟩]⟩]
      ⟨"reg.a", .error "auth"⟩ "auth").1 (by simp)
    rw [h]
    rfl,
   (searchImage_registry_failures [] ⟨"reg.a", .error "auth"⟩ "auth").2 rfl⟩

/-- Counterexample for C5 as stated: the scheme token the code matches is
`"docker-archive:"`, not `"archive:"` — a pull of `"archive:/tmp/x.tar"`
misses the archive branch and performs a registry pull (here the registry
oracle answers, and its ID, not the archive's, is returned). -/
theorem pullImage_archive_scheme_counterexample :
    PullImage
      { parseImageName := fun s => .ok s
        loadFromArchive := fun _ => .ok ["archiveID"]
        registryPull := fun n => .ok ("registry-pulled:" ++ n) }
      "archive:/tmp/x.tar" =
      .pull "registry-pulled:archive:/tmp/x.tar" := rfl

/-- C5 (amended): the archive scheme token is `"docker-archive:"` — the
docker-archive transport name with the delimiting colon included.  A
`PullImage` call whose name carries that token resolves to the local
archive branch: the registry-pull oracle is never consulted (any two
environments agreeing on the archive oracles give the same reply), and the
reply carries the first image ID embedded in the archive. -/
theorem pullImage_docker_archive_scheme (env env' : PullEnv) (name srcRef : String)
    (ids : List String) (i : String)
    (h : hasPrefix name dockerArchiveScheme = true)
    (hparse : env.parseImageName name = .ok srcRef)
    (hload : env.loadFromArchive srcRef = .ok ids)
    (hhead : ids[0]? = some i) :
    PullImage env name = .pull i ∧
    (env'.parseImageName = env.parseImageName →
      env'.loadFromArchive = env.loadFromArchive →
      PullImage env' name = PullImage env name) := by
  constructor
  · unfold PullImage
    simp only [h, if_true]
    unfold pullArchive
    simp [hparse, hload, hhead]
  · intro h1 h2
    unfold PullImage
    simp only [h, if_true]
    unfold pullArchive
    rw [h1, h2]

/-- Witness for C5 (amended): a concrete `"docker-archive:/tmp/x.tar"`
pull returns the archive's embedded ID, under two environments whose
registry oracles disagree. -/
theorem pullImage_docker_archive_scheme_witness :
    PullImage
      { parseImageName := fun s => .ok s
        loadFromArchive := fun _ => .ok ["embeddedID"]
        registryPull := fun _ => .ok "wrong" }
      "docker-archive:/tmp/x.tar" = .pull "embeddedID" ∧
    (PullImage
      { parseImageName := fun s => .ok s
        loadFromArchive := fun _ => .ok ["embeddedID"]
        registryPull := fun _ => .error "network down" }
      "docker-archive:/tmp/x.tar" =
     PullImage
      { parseImageName := fun s => .ok s
        loadFromArchive := fun _ => .ok ["embeddedID"]
        registryPull := fun _ => .ok "wrong" }
      "docker-archive:/tmp/x.tar") :=
  ⟨(pullImage_docker_archive_scheme
      { parseImageName := fun s => .ok s
        loadFromArchive := fun _ => .ok ["embeddedID"]
        registryPull := fun _ => .ok "wrong" }
      { parseImageName := fun s => .ok s
        loadFromArchive := fun _ => .ok ["embeddedID"]
        registryPull := fun _ => .error "network down" }
      "docker-archive:/tmp/x.tar" "docker-archive:/tmp/x.tar" ["embeddedID"]
      "embeddedID" (by decide) rfl rfl rfl).1,
   (pullImage_docker_archive_scheme
      { parseImageName := fun s => .ok s
        loadFromArchive := fun _ => .ok ["embeddedID"]
        registryPull := fun _ => .ok "wrong" }
      { parseImageName := fun s => .ok s
        loadFromArchive := fun _ => .ok ["embeddedID"]
        registryPull := fun _ => .error "network down" }
      "docker-archive:/tmp/x.tar" "docker-archive:/tmp/x.tar" ["embeddedID"]
      "embeddedID" (by decide) rfl rfl rfl).2 rfl rfl⟩

/-- Counterexample for C6 as stated: an image with two history entries and
tag `"myapp:latest"` — the earlier (non-final) entry also carries the tag
names, not an empty tag list. -/
theorem historyImage_tags_counterexample :
    HistoryImage
      (fun _ => .ok
        { names := ["myapp:latest"]
          history := .ok [⟨"layer1", "t1", "cmd1", 1, "first"⟩,
                          ⟨"layer2", "t2", "cmd2", 2, "last"⟩] })
      "myapp:latest" =
      .history [⟨"layer1", "t1", "cmd1", ["myapp:latest"], 1, "first"⟩,
                ⟨"layer2", "t2", "cmd2", ["myapp:latest"], 2, "last"⟩] ∧
    (ImageHistory.tags ⟨"layer1", "t1", "cmd1", ["myapp:latest"], 1, "first"⟩ ≠ []) :=
  ⟨rfl, by simp⟩

/-- C6 (amended): `HistoryImage` returns the history entries in the order
the underlying store reports them (one reply entry per history entry, same
index, fields copied), and associates every entry — not only the final
one — with the image's current tag names. -/
theorem historyImage_entries (lookup : String → Except String HistImage)
    (name : String) (img : HistImage) (hist : List HistoryEnt)
    (hlk : lookup name = .ok img) (hh : img.history = .ok hist) :
    HistoryImage lookup name = .history (historiesOf img.names hist) ∧
    (historiesOf img.names hist).length = hist.length ∧
    (∀ (k : Nat) (h : HistoryEnt), hist[k]? = some h →
      (historiesOf img.names hist)[k]? =
        some (ImageHistory.mk h.id h.created h.createdBy img.names h.size h.comment)) := by
  refine ⟨?_, ?_, ?_⟩
  · unfold HistoryImage
    simp [hlk, hh]
  · unfold historiesOf
    simp
  · intro k h hk
    unfold historiesOf
    rw [List.getElem?_map, hk]
    rfl

/-- Witness for C6 (amended): a concrete two-entry history keeps its order
and both entries carry the image's tag names. -/
theorem historyImage_entries_witness :
    HistoryImage
      (fun _ => .ok
        { names := ["repo/app:1"]
          history := .ok [⟨"l1", "t1", "c1", 1, "m1"⟩, ⟨"l2", "t2", "c2", 2, "m2"⟩] })
      "repo/app:1" =
      .history (historiesOf ["repo/app:1"]
        [⟨"l1", "t1", "c1", 1, "m1"⟩, ⟨"l2", "t2", "c2", 2, "m2"⟩]) ∧
    (historiesOf ["repo/app:1"]
        [⟨"l1", "t1", "c1", 1, "m1"⟩, ⟨"l2", "t2", "c2", 2, "m2"⟩]).length = 2 ∧
    (historiesOf ["repo/app:1"]
        [⟨"l1", "t1", "c1", 1, "m1"⟩, ⟨"l2", "t2", "c2", 2, "m2"⟩])[0]? =
      some ⟨"l1", "t1", "c1", ["repo/app:1"], 1, "m1"⟩ :=
  have h := historyImage_entries
    (fun _ => .ok
      { names := ["repo/app:1"]
        history := .ok [⟨"l1", "t1", "c1", 1, "m1"⟩, ⟨"l2", "t2", "c2", 2, "m2"⟩] })
    "repo/app:1"
    { names := ["repo/app:1"]
      history := .ok [⟨"l1", "t1", "c1", 1, "m1"⟩, ⟨"l2", "t2", "c2", 2, "m2"⟩] }
    [⟨"l1", "t1", "c1", 1, "m1"⟩, ⟨"l2", "t2", "c2", 2, "m2"⟩] rfl rfl
  ⟨h.1, h.2.1, h.2.2 0 ⟨"l1", "t1", "c1", 1, "m1"⟩ rfl⟩

/-- `PushImage` either never pushes or pushes to the destination name the
source computes: the tag when non-empty, the source name otherwise. -/
theorem pushImage_pushedTo (env : PushEnv) (name tag creds format : String) :
    (PushImage env name tag creds format).pushedTo = none ∨
    (PushImage env name tag creds format).pushedTo =
      some (if tag != "" then tag else name) := by
  unfold PushImage
  split
  · exact Or.inl rfl
  · simp only []
    repeat' split
    all_goals first
      | exact Or.inl rfl
      | exact Or.inr rfl

/-- C7: whenever `PushImage` pushes, the destination name is the explicit
tag argument when it is non-empty, and the source name otherwise. -/
theorem pushImage_destination (env : PushEnv) (name tag creds format d : String)
    (h : (PushImage env name tag creds format).pushedTo = some d) :
    (tag ≠ "" → d = tag) ∧ (tag = "" → d = name) := by
  rcases pushImage_pushedTo env name tag creds format with h0 | h0
  · rw [h0] at h
    cases h
  · rw [h0] at h
    have hd := Option.some.inj h
    constructor
    · intro ht
      rw [← hd]
      simp [ht]
    · intro ht
      rw [← hd]
      simp [ht]

/-- Witness for C7: a concrete push with a non-empty tag goes to the tag;
the hypothesis is discharged by evaluating the handler. -/
theorem pushImage_destination_witness :
    ((("dest.io/app:2" : String) ≠ "" → ("dest.io/app:2" : String) = "dest.io/app:2") ∧
     (("dest.io/app:2" : String) = "" → ("dest.io/app:2" : String) = "src.io/app:1")) :=
  pushImage_destination
    { lookup := fun _ => .ok "sha", parseCreds := fun c => .ok c
      push := fun _ _ => none }
    "src.io/app:1" "dest.io/app:2" "" "" "dest.io/app:2" rfl

/-- C10: `ImageExists` encodes existence inverted — it replies `1` when no
local image matches (the no-such-image lookup outcome) and `0` when one is
found; a missing image never surfaces as the error reply, which is
reserved for the other lookup errors. -/
theorem imageExists_inverted (lookup : String → LookupResult) (name : String) :
    (lookup name = .noSuchImage → ImageExists lookup name = .imageExists 1) ∧
    (∀ id, lookup name = .found id → ImageExists lookup name = .imageExists 0) ∧
    (∀ e, lookup name = .otherError e → ImageExists lookup name = .errorOccurred e) ∧
    (∀ m, ImageExists lookup name = .errorOccurred m → lookup name = .otherError m) := by
  refine ⟨?_, ?_, ?_, ?_⟩
  · intro h
    unfold ImageExists
    simp [h]
  · intro id h
    unfold ImageExists
    simp [h]
  · intro e h
    unfold ImageExists
    simp [h]
  · intro m h
    unfold ImageExists at h
    cases hl : lookup name with
    | found id => simp [hl] at h
    | noSuchImage => simp [hl] at h
    | otherError e => simp [hl] at h; rw [h]

/-- Witness for C10: a concrete missing image replies `1`, a concrete
found image replies `0`. -/
theorem imageExists_inverted_witness :
    ImageExists (fun _ => .noSuchImage) "gone" = .imageExists 1 ∧
    ImageExists (fun _ => .found "sha") "here" = .imageExists 0 :=
  ⟨(imageExists_inverted (fun _ => .noSuchImage) "gone").1 rfl,
   (imageExists_inverted (fun _ => .found "sha") "here").2.1 "sha" rfl⟩

end Varlinkapi
